import Mathlib

/-
Verification of the SAP AI Core token manager (sap_multiagent_sample/sap_token_manager.py
and sap_sample/token_manager.py, whose cache logic is line-for-line identical).

The embedding is a shallow one: timestamps are integers (seconds), the network exchange
performed inside a refresh is abstracted as a value of type RefreshResult delivered to the
call, and the environment is a function from variable names to optional strings.  Python
truthiness of an Optional[str] (None and the empty string are falsy) is modelled by
strTruthy.  A fixed value of `now` is threaded through each call, matching a single
datetime.now() reading.
-/

/-- The JSON body of a successful (2xx) token response: access_token is read with
data['access_token'] (KeyError when absent), expires_in with data.get('expires_in', 3600). -/
structure ResponseBody where
  access_token : Option String
  expires_in : Option Int
  deriving DecidableEq, Repr

/-- Outcome of the POST to the authorization endpoint: failure covers transport errors and
non-2xx statuses (raise_for_status), success carries the parsed JSON body. -/
inductive RefreshResult where
  | failure (cause : String)
  | success (body : ResponseBody)
  deriving DecidableEq, Repr

/-- Abstract refresh-failure taxonomy: requestFailed is the requests exception propagated by
_refresh_token, missingAccessToken is the KeyError raised by data['access_token']. -/
inductive CredentialRefreshError where
  | requestFailed (cause : String)
  | missingAccessToken
  deriving DecidableEq, Repr

/-- Construction-time failure: the ValueError raised by __init__ for missing env vars. -/
inductive ConfigError where
  | missingRequiredEnv
  deriving DecidableEq, Repr

/-- The SAPTokenManager object: cached credential (token, expires_at) plus the
configuration read from the environment in __init__. -/
structure SAPTokenManager where
  token : Option String
  expires_at : Option Int
  auth_url : Option String
  client_id : Option String
  client_secret : Option String
  deriving DecidableEq, Repr

/-- Python truthiness of an Optional[str]: None and the empty string are falsy. -/
def strTruthy : Option String → Bool
  | none => false
  | some s => s != ""

/-- SAPTokenManager.__init__: reads AICORE_AUTH_URL, AICORE_CLIENT_ID and
AICORE_CLIENT_SECRET from the environment, raises ValueError unless all three are truthy,
and starts with an empty credential (token and expires_at both None). -/
def sap_token_manager_init (env : String → Option String) :
    Except ConfigError SAPTokenManager :=
  let m : SAPTokenManager :=
    { token := none
      expires_at := none
      auth_url := env "AICORE_AUTH_URL"
      client_id := env "AICORE_CLIENT_ID"
      client_secret := env "AICORE_CLIENT_SECRET" }
  if strTruthy m.auth_url && strTruthy m.client_id && strTruthy m.client_secret then
    Except.ok m
  else
    Except.error ConfigError.missingRequiredEnv

/-- The staleness test of get_token:
if not self.token or not self.expires_at or datetime.now() >= self.expires_at.
A datetime object is always truthy, so the middle disjunct is an is-None test. -/
def needsRefresh (m : SAPTokenManager) (now : Int) : Bool :=
  !strTruthy m.token || m.expires_at.isNone ||
    (match m.expires_at with
     | none => false
     | some e => decide (now ≥ e))

/-- SAPTokenManager._refresh_token: on transport failure / non-2xx the exception propagates
before any assignment; on success, data['access_token'] is read first (KeyError when the
field is absent, again before any assignment), then token and expires_at are both set, with
expires_at = now + (expires_in - 300) and expires_in defaulting to 3600. -/
def refresh_token (m : SAPTokenManager) (now : Int) (r : RefreshResult) :
    Except CredentialRefreshError SAPTokenManager :=
  match r with
  | RefreshResult.failure cause => Except.error (CredentialRefreshError.requestFailed cause)
  | RefreshResult.success body =>
    match body.access_token with
    | none => Except.error CredentialRefreshError.missingAccessToken
    | some tok =>
      let expires_in := body.expires_in.getD 3600
      Except.ok { m with token := some tok, expires_at := some (now + (expires_in - 300)) }

/-- Result of a get_token call: the state of the manager afterwards, the value returned to
the caller (or the propagated refresh error), and how many refresh exchanges were sent to
the authorization endpoint during the call. -/
structure GetTokenResult where
  state : SAPTokenManager
  ret : Except CredentialRefreshError (Option String)
  exchanges : Nat
  deriving Repr

/-- SAPTokenManager.get_token: under the lock, refresh when needsRefresh holds, then return
self.token.  A failed refresh leaves the state untouched and propagates the error. -/
def get_token (m : SAPTokenManager) (now : Int) (r : RefreshResult) : GetTokenResult :=
  if needsRefresh m now then
    match refresh_token m now r with
    | Except.error e => { state := m, ret := Except.error e, exchanges := 1 }
    | Except.ok m' => { state := m', ret := Except.ok m'.token, exchanges := 1 }
  else
    { state := m, ret := Except.ok m.token, exchanges := 0 }

/-- Result of a force_refresh call. -/
structure ForceRefreshResult where
  state : SAPTokenManager
  ret : Except CredentialRefreshError Unit
  exchanges : Nat
  deriving Repr

/-- SAPTokenManager.force_refresh: under the lock, unconditionally run _refresh_token. -/
def force_refresh (m : SAPTokenManager) (now : Int) (r : RefreshResult) : ForceRefreshResult :=
  match refresh_token m now r with
  | Except.error e => { state := m, ret := Except.error e, exchanges := 1 }
  | Except.ok m' => { state := m', ret := Except.ok (), exchanges := 1 }

/-- SAPTokenManager.is_token_valid: False when token or expires_at is falsy, else
datetime.now() < expires_at. -/
def is_token_valid (m : SAPTokenManager) (now : Int) : Bool :=
  if !strTruthy m.token || m.expires_at.isNone then
    false
  else
    match m.expires_at with
    | none => false
    | some e => decide (now < e)

/-- Python str() of an Optional[str] as it is interpolated into the f-string. -/
def pyStr : Option String → String
  | none => "None"
  | some s => s

/-- The header dictionary built by get_auth_headers. -/
structure AuthHeaders where
  authorization : String
  ai_resource_group : String
  content_type : String
  deriving DecidableEq, Repr

/-- SAPTokenManager.get_auth_headers: resolves the resource group (explicit argument, else
os.getenv('AICORE_RESOURCE_GROUP', 'default') read at call time), then builds the header
dict around self.get_token(); a refresh failure propagates. -/
def get_auth_headers (env : String → Option String) (m : SAPTokenManager) (now : Int)
    (r : RefreshResult) (resource_group : Option String) :
    Except CredentialRefreshError (SAPTokenManager × AuthHeaders) :=
  let rg : String :=
    match resource_group with
    | none => (env "AICORE_RESOURCE_GROUP").getD "default"
    | some g => g
  let gt := get_token m now r
  match gt.ret with
  | Except.error e => Except.error e
  | Except.ok t =>
    Except.ok (gt.state,
      { authorization := "Bearer " ++ pyStr t
        ai_resource_group := rg
        content_type := "application/json" })

/-
Interleaving model of N threads concurrently executing the body of get_token.
Each thread walks through the program counters below; a step of a thread is atomic,
the scheduler is an arbitrary list of thread indices, and a chosen thread that cannot
move (blocked on the lock, or already done) leaves the system unchanged.  The k-th
refresh exchange performed anywhere in the run receives the response envR k; time is a
fixed now for the whole run, the formalisation of the callers being concurrent.
-/

/-- Program counter of one thread running get_token: before the lock; holding the lock
about to evaluate the staleness check; holding the lock with a refresh exchange in
flight; or finished with the value get_token returned (or raised) to that caller. -/
inductive ThreadPC where
  | start
  | checking
  | refreshing
  | done (ret : Except CredentialRefreshError (Option String))

/-- A thread is inside the check-and-refresh critical section. -/
def ThreadPC.inCS : ThreadPC → Bool
  | ThreadPC.checking => true
  | ThreadPC.refreshing => true
  | _ => false

/-- A thread has completed its get_token call. -/
def ThreadPC.isDone : ThreadPC → Bool
  | ThreadPC.done _ => true
  | _ => false

/-- Shared system state: the cache, which thread (if any) holds self.lock, every
thread's program counter, and the number of refresh exchanges performed so far. -/
structure SysState (n : Nat) where
  cache : SAPTokenManager
  lockHolder : Option (Fin n)
  threads : Fin n → ThreadPC
  exchanges : Nat

/-- One atomic step of thread i in the get_token interleaving model. -/
def threadStep (now : Int) (envR : Nat → RefreshResult) (sys : SysState n) (i : Fin n) :
    SysState n :=
  match sys.threads i with
  | ThreadPC.start =>
    match sys.lockHolder with
    | none =>
      { sys with lockHolder := some i
                 threads := Function.update sys.threads i ThreadPC.checking }
    | some _ => sys
  | ThreadPC.checking =>
    if needsRefresh sys.cache now then
      { sys with threads := Function.update sys.threads i ThreadPC.refreshing }
    else
      { sys with lockHolder := none
                 threads := Function.update sys.threads i
                   (ThreadPC.done (Except.ok sys.cache.token)) }
  | ThreadPC.refreshing =>
    match refresh_token sys.cache now (envR sys.exchanges) with
    | Except.error e =>
      { sys with lockHolder := none
                 exchanges := sys.exchanges + 1
                 threads := Function.update sys.threads i (ThreadPC.done (Except.error e)) }
    | Except.ok m' =>
      { sys with cache := m'
                 lockHolder := none
                 exchanges := sys.exchanges + 1
                 threads := Function.update sys.threads i
                   (ThreadPC.done (Except.ok m'.token)) }
  | ThreadPC.done _ => sys

/-- Run the interleaving model under a schedule (a list of thread choices). -/
def runSched (now : Int) (envR : Nat → RefreshResult) (sys : SysState n) :
    List (Fin n) → SysState n
  | [] => sys
  | i :: rest => runSched now envR (threadStep now envR sys i) rest

/-- Initial system: a shared manager m, the lock free, every thread about to call
get_token, no exchange performed yet. -/
def initSys (n : Nat) (m : SAPTokenManager) : SysState n :=
  { cache := m, lockHolder := none, threads := fun _ => ThreadPC.start, exchanges := 0 }

/-- Lock discipline: a thread inside the critical section is the lock holder. -/
def lockInv (sys : SysState n) : Prop :=
  ∀ i : Fin n, (sys.threads i).inCS = true → sys.lockHolder = some i

/-- The cache resulting from a successful refresh of m0 with token tok and lifetime L. -/
def refreshedCache (m0 : SAPTokenManager) (now : Int) (tok : String) (L : Int) :
    SAPTokenManager :=
  { m0 with token := some tok, expires_at := some (now + (L - 300)) }

/-- A cache freshly refreshed with a non-empty token and a lifetime above the 300 s
safety margin passes the staleness check. -/
lemma needsRefresh_refreshedCache (m0 : SAPTokenManager) (now : Int) (tok : String)
    (L : Int) (htok : tok ≠ "") (hL : 300 < L) :
    needsRefresh (refreshedCache m0 now tok L) now = false := by
  simp only [needsRefresh, refreshedCache, strTruthy, Option.isNone]
  have h1 : (tok != "") = true := by
    simpa using htok
  simp only [h1, Bool.not_true, Bool.false_or]
  simpa using by omega

/-- Run of N concurrent get_token callers: start from a shared manager m0 and fold the
schedule, feeding envR to every refresh exchange. -/
def runGetToken (n : Nat) (m0 : SAPTokenManager) (now : Int) (envR : Nat → RefreshResult)
    (sched : List (Fin n)) : SysState n :=
  runSched now envR (initSys n m0) sched

/-- Inductive invariant of the N-caller get_token run against a deterministic successful
response (token tok, lifetime L): the lock discipline holds, and either no exchange has
happened yet (cache still m0, nobody finished) or exactly one has (cache refreshed, no
exchange in flight, and every finished caller got the token tok). -/
def c1Inv (m0 : SAPTokenManager) (now : Int) (tok : String) (L : Int)
    (sys : SysState n) : Prop :=
  lockInv sys ∧
  ((sys.exchanges = 0 ∧ sys.cache = m0 ∧
      ∀ i : Fin n, (sys.threads i).isDone = false) ∨
   (sys.exchanges = 1 ∧ sys.cache = refreshedCache m0 now tok L ∧
      (∀ i : Fin n, sys.threads i ≠ ThreadPC.refreshing) ∧
      (∀ i : Fin n, ∀ r, sys.threads i = ThreadPC.done r → r = Except.ok (some tok))))

lemma c1Inv_step (n : Nat) (m0 : SAPTokenManager) (now : Int) (tok : String) (L : Int)
    (hneed : needsRefresh m0 now = true) (htok : tok ≠ "") (hL : 300 < L)
    (sys : SysState n) (i : Fin n) (h : c1Inv m0 now tok L sys) :
    c1Inv m0 now tok L
      (threadStep now (fun _ => RefreshResult.success ⟨some tok, some L⟩) sys i) := by
  obtain ⟨hlock, hphase⟩ := h
  cases hpc : sys.threads i with
  | start =>
    cases hl : sys.lockHolder with
    | none =>
      simp only [threadStep, hpc, hl]
      refine ⟨?_, ?_⟩
      · intro j hj
        by_cases hij : j = i
        · subst hij; rfl
        · simp only [Function.update_noteq hij] at hj
          exact absurd (hlock j hj) (by rw [hl]; simp)
      · rcases hphase with ⟨he, hc, hd⟩ | ⟨he, hc, hr, hd⟩
        · refine Or.inl ⟨he, hc, ?_⟩
          intro j
          by_cases hij : j = i
          · subst hij; simp only [Function.update_same]; rfl
          · simp only [Function.update_noteq hij]; exact hd j
        · refine Or.inr ⟨he, hc, ?_, ?_⟩
          · intro j
            by_cases hij : j = i
            · subst hij; simp only [Function.update_same]; intro hc'; cases hc'
            · simp only [Function.update_noteq hij]; exact hr j
          · intro j r hj
            by_cases hij : j = i
            · subst hij; simp only [Function.update_same] at hj; simp at hj
            · simp only [Function.update_noteq hij] at hj; exact hd j r hj
    | some k =>
      simp only [threadStep, hpc, hl]
      exact ⟨hlock, hphase⟩
  | checking =>
    have hli : sys.lockHolder = some i := hlock i (by rw [hpc]; rfl)
    rcases hphase with ⟨he, hc, hd⟩ | ⟨he, hc, hr, hd⟩
    · -- phase A: the staleness check succeeds, the thread moves on to the exchange
      have hnr : needsRefresh sys.cache now = true := by rw [hc]; exact hneed
      simp only [threadStep, hpc, hnr, ↓reduceIte]
      refine ⟨?_, Or.inl ⟨he, hc, ?_⟩⟩
      · intro j hj
        by_cases hij : j = i
        · subst hij; exact hli
        · simp only [Function.update_noteq hij] at hj; exact hlock j hj
      · intro j
        by_cases hij : j = i
        · subst hij; simp only [Function.update_same]; rfl
        · simp only [Function.update_noteq hij]; exact hd j
    · -- phase B: the refreshed cache passes the check, the thread returns it
      have hnr : needsRefresh sys.cache now = false := by
        rw [hc]; exact needsRefresh_refreshedCache m0 now tok L htok hL
      simp only [threadStep, hpc, hnr, Bool.false_eq_true, ↓reduceIte]
      refine ⟨?_, Or.inr ⟨he, hc, ?_, ?_⟩⟩
      · intro j hj
        by_cases hij : j = i
        · subst hij; simp only [Function.update_same] at hj
          simp [ThreadPC.inCS] at hj
        · simp only [Function.update_noteq hij] at hj
          have := hlock j hj
          rw [hli] at this
          exact absurd (Option.some_injective _ this.symm) hij
      · intro j
        by_cases hij : j = i
        · subst hij; simp only [Function.update_same]; simp
        · simp only [Function.update_noteq hij]; exact hr j
      · intro j r hj
        by_cases hij : j = i
        · subst hij; simp only [Function.update_same] at hj
          injection hj with hj'
          subst hj'
          rw [hc]; rfl
        · simp only [Function.update_noteq hij] at hj; exact hd j r hj
  | refreshing =>
    have hli : sys.lockHolder = some i := hlock i (by rw [hpc]; rfl)
    rcases hphase with ⟨he, hc, hd⟩ | ⟨he, hc, hr, hd⟩
    · -- phase A: this step performs the one successful exchange
      have hrt : refresh_token sys.cache now (RefreshResult.success ⟨some tok, some L⟩) =
          Except.ok (refreshedCache m0 now tok L) := by
        rw [hc]; rfl
      simp only [threadStep, hpc, hrt]
      refine ⟨?_, Or.inr ⟨?_, rfl, ?_, ?_⟩⟩
      · intro j hj
        by_cases hij : j = i
        · subst hij; simp only [Function.update_same] at hj
          simp [ThreadPC.inCS] at hj
        · simp only [Function.update_noteq hij] at hj
          have := hlock j hj
          rw [hli] at this
          exact absurd (Option.some_injective _ this.symm) hij
      · rw [he]
      · intro j
        by_cases hij : j = i
        · subst hij; simp only [Function.update_same]; simp
        · simp only [Function.update_noteq hij]
          intro hj
          have := hlock j (by rw [hj]; rfl)
          rw [hli] at this
          exact absurd (Option.some_injective _ this.symm) hij
      · intro j r hj
        by_cases hij : j = i
        · subst hij; simp only [Function.update_same] at hj
          injection hj with hj'
          subst hj'
          rfl
        · simp only [Function.update_noteq hij] at hj
          have := hd j
          rw [hj] at this
          simp [ThreadPC.isDone] at this
    · exact absurd hpc (hr i)
  | done r =>
    simp only [threadStep, hpc]
    exact ⟨hlock, hphase⟩

lemma c1Inv_run (n : Nat) (m0 : SAPTokenManager) (now : Int) (tok : String) (L : Int)
    (hneed : needsRefresh m0 now = true) (htok : tok ≠ "") (hL : 300 < L)
    (sched : List (Fin n)) (sys : SysState n) (h : c1Inv m0 now tok L sys) :
    c1Inv m0 now tok L
      (runSched now (fun _ => RefreshResult.success ⟨some tok, some L⟩) sys sched) := by
  induction sched generalizing sys with
  | nil => exact h
  | cons j rest ih =>
    exact ih _ (c1Inv_step n m0 now tok L hneed htok hL sys j h)

lemma c1Inv_init (n : Nat) (m0 : SAPTokenManager) (now : Int) (tok : String) (L : Int) :
    c1Inv m0 now tok L (initSys n m0) := by
  refine ⟨?_, Or.inl ⟨rfl, rfl, fun i => rfl⟩⟩
  intro i hi
  simp [initSys, ThreadPC.inCS] at hi

/-- A concretely configured manager with an empty cache, as a successful __init__
produces it. -/
def cexManager : SAPTokenManager :=
  { token := none
    expires_at := none
    auth_url := some "https://auth.example.com"
    client_id := some "client"
    client_secret := some "secret" }

/-- Authorization-endpoint behaviour for the C1 counterexample: every exchange succeeds,
with the pathological lifetime of exactly 300 seconds and a distinct token per exchange. -/
def shortLifeEnv : Nat → RefreshResult := fun k =>
  RefreshResult.success
    { access_token := some (if k = 0 then "tokA" else "tokB"), expires_in := some 300 }

/-- C1: the claim is false as stated.  Two callers hit an empty cache; the server reports
a lifetime of exactly 300 seconds, so the refreshed expiry is not in the future, the
second caller still sees the cache as expired, and two refresh exchanges are performed
with the two callers receiving different tokens — under a schedule in which the callers
run strictly one after the other, so this is not a locking failure. -/
theorem C1_counterexample :
    (runGetToken 2 cexManager 0 shortLifeEnv [0, 0, 0, 1, 1, 1]).exchanges = 2 ∧
    (runGetToken 2 cexManager 0 shortLifeEnv [0, 0, 0, 1, 1, 1]).threads 0 =
      ThreadPC.done (Except.ok (some "tokA")) ∧
    (runGetToken 2 cexManager 0 shortLifeEnv [0, 0, 0, 1, 1, 1]).threads 1 =
      ThreadPC.done (Except.ok (some "tokB")) :=
  ⟨rfl, rfl, rfl⟩

/-- One step of any thread preserves the lock discipline, for an arbitrary initial cache
and arbitrary responses from the authorization endpoint (successes, failures, any
lifetimes): whoever is inside the check-and-refresh critical section is the lock holder. -/
lemma lockInv_threadStep (now : Int) (envR : Nat → RefreshResult) (sys : SysState n)
    (i : Fin n) (h : lockInv sys) : lockInv (threadStep now envR sys i) := by
  intro j hj
  cases hpc : sys.threads i with
  | start =>
    cases hl : sys.lockHolder with
    | none =>
      simp only [threadStep, hpc, hl] at hj ⊢
      by_cases hij : j = i
      · subst hij; rfl
      · simp only [Function.update_noteq hij] at hj
        exact absurd (h j hj) (by rw [hl]; simp)
    | some k =>
      simp only [threadStep, hpc, hl] at hj ⊢
      rw [← hl]
      exact h j hj
  | checking =>
    have hli : sys.lockHolder = some i := h i (by rw [hpc]; rfl)
    cases hnr : needsRefresh sys.cache now with
    | true =>
      simp only [threadStep, hpc, hnr, ↓reduceIte] at hj ⊢
      by_cases hij : j = i
      · subst hij; exact hli
      · simp only [Function.update_noteq hij] at hj
        exact h j hj
    | false =>
      simp only [threadStep, hpc, hnr, Bool.false_eq_true, ↓reduceIte] at hj ⊢
      by_cases hij : j = i
      · subst hij; simp only [Function.update_same] at hj
        simp [ThreadPC.inCS] at hj
      · simp only [Function.update_noteq hij] at hj
        have := h j hj
        rw [hli] at this
        exact absurd (Option.some_injective _ this.symm) hij
  | refreshing =>
    have hli : sys.lockHolder = some i := h i (by rw [hpc]; rfl)
    cases hrt : refresh_token sys.cache now (envR sys.exchanges) with
    | error e =>
      simp only [threadStep, hpc, hrt] at hj ⊢
      by_cases hij : j = i
      · subst hij; simp only [Function.update_same] at hj
        simp [ThreadPC.inCS] at hj
      · simp only [Function.update_noteq hij] at hj
        have := h j hj
        rw [hli] at this
        exact absurd (Option.some_injective _ this.symm) hij
    | ok m' =>
      simp only [threadStep, hpc, hrt] at hj ⊢
      by_cases hij : j = i
      · subst hij; simp only [Function.update_same] at hj
        simp [ThreadPC.inCS] at hj
      · simp only [Function.update_noteq hij] at hj
        have := h j hj
        rw [hli] at this
        exact absurd (Option.some_injective _ this.symm) hij
  | done r =>
    simp only [threadStep, hpc] at hj ⊢
    exact h j hj

/-- The lock discipline holds along every run, for arbitrary cache and responses. -/
lemma lockInv_runSched (now : Int) (envR : Nat → RefreshResult) (sched : List (Fin n))
    (sys : SysState n) (h : lockInv sys) : lockInv (runSched now envR sys sched) := by
  induction sched generalizing sys with
  | nil => exact h
  | cons j rest ih => exact ih _ (lockInv_threadStep now envR sys j h)

/-- In the initial system nobody is inside the critical section. -/
lemma lockInv_initSys (n : Nat) (m : SAPTokenManager) : lockInv (initSys n m) := by
  intro i hi
  simp [initSys, ThreadPC.inCS] at hi

/-- C1 (amended): in every run — any initial cache, any schedule, any responses from the
authorization endpoint, failures and short lifetimes included — only one execution
context is ever inside the check-and-refresh critical section at a time; and when the
cache starts empty or expired and the server answers with a non-empty token and a
lifetime strictly greater than the 300-second safety margin, at most one refresh exchange
is performed and every caller that completes received that same token (some caller
completing makes the exchange count exactly one). -/
theorem C1_amended_one_refresh (n : Nat) (m0 : SAPTokenManager) (now : Int)
    (envR : Nat → RefreshResult) (sched : List (Fin n)) (tok : String) (L : Int) :
    (∀ i j : Fin n,
        ((runGetToken n m0 now envR sched).threads i).inCS = true →
        ((runGetToken n m0 now envR sched).threads j).inCS = true →
        i = j) ∧
    (needsRefresh m0 now = true → tok ≠ "" → 300 < L →
      envR = (fun _ => RefreshResult.success ⟨some tok, some L⟩) →
      (runGetToken n m0 now envR sched).exchanges ≤ 1 ∧
      (∀ i : Fin n, ∀ r,
          (runGetToken n m0 now envR sched).threads i = ThreadPC.done r →
          r = Except.ok (some tok) ∧
          (runGetToken n m0 now envR sched).exchanges = 1)) := by
  simp only [runGetToken]
  constructor
  · intro i j hi hj
    have hli := lockInv_runSched now envR sched (initSys n m0) (lockInv_initSys n m0)
    have h1 := hli i hi
    have h2 := hli j hj
    rw [h1] at h2
    exact Option.some_injective _ h2
  · intro hneed htok hL henv
    subst henv
    have hinv :=
      c1Inv_run n m0 now tok L hneed htok hL sched (initSys n m0) (c1Inv_init n m0 now tok L)
    obtain ⟨_, hphase⟩ := hinv
    constructor
    · rcases hphase with ⟨he, _, _⟩ | ⟨he, _, _, _⟩ <;> omega
    · intro i r hir
      rcases hphase with ⟨he, hc, hd⟩ | ⟨he, hc, hr, hd⟩
      · have := hd i
        rw [hir] at this
        simp [ThreadPC.isDone] at this
      · exact ⟨hd i r hir, he⟩

/-- Witness for C1 (amended): the conditional part's hypotheses hold at a concrete
instance (two callers, an empty cache, a one-hour lifetime), and the amended theorem
applies to give at most one exchange in that run. -/
theorem C1_amended_one_refresh_witness :
    needsRefresh cexManager 0 = true ∧
    (runGetToken 2 cexManager 0 (fun _ => RefreshResult.success ⟨some "tok", some 3600⟩)
        [0, 0, 0, 1, 1, 1]).exchanges ≤ 1 :=
  ⟨by decide,
   ((C1_amended_one_refresh 2 cexManager 0
       (fun _ => RefreshResult.success ⟨some "tok", some 3600⟩) [0, 0, 0, 1, 1, 1]
       "tok" 3600).2 (by decide) (by decide) (by decide) rfl).1⟩

/-- The staleness check spelt out: refresh is required exactly when the cached token is
Python-falsy (absent or empty), or no expiry is known, or the expiry is not after now. -/
lemma needsRefresh_true_iff (m : SAPTokenManager) (now : Int) :
    needsRefresh m now = true ↔
      (strTruthy m.token = false ∨ m.expires_at = none ∨
        ∃ e, m.expires_at = some e ∧ e ≤ now) := by
  cases hE : m.expires_at with
  | none => simp [needsRefresh, hE]
  | some e => simp [needsRefresh, hE]

/-- The staleness check fails exactly when a Python-truthy token is cached together with
an expiry strictly in the future. -/
lemma needsRefresh_false_iff (m : SAPTokenManager) (now : Int) :
    needsRefresh m now = false ↔
      (strTruthy m.token = true ∧ ∃ e, m.expires_at = some e ∧ now < e) := by
  cases hE : m.expires_at with
  | none => simp [needsRefresh, hE]
  | some e => simp [needsRefresh, hE]

/-- C2: for every cache state, a failing refresh exchange (network error or non-success
status) leaves the cached (token, expires_at) pair exactly as it was before the call —
whether the refresh was run by get_token or by force_refresh — and the failure surfaces
to the caller carrying the underlying cause instead of being swallowed. -/
theorem C2_failure_preserves_cache (m : SAPTokenManager) (now : Int) (cause : String) :
    (get_token m now (RefreshResult.failure cause)).state = m ∧
    (needsRefresh m now = true →
      (get_token m now (RefreshResult.failure cause)).ret =
        Except.error (CredentialRefreshError.requestFailed cause)) ∧
    (force_refresh m now (RefreshResult.failure cause)).state = m ∧
    (force_refresh m now (RefreshResult.failure cause)).ret =
      Except.error (CredentialRefreshError.requestFailed cause) := by
  refine ⟨?_, ?_, ?_, ?_⟩ <;>
    by_cases h : needsRefresh m now <;>
    simp [get_token, force_refresh, refresh_token, h]

/-- Witness for C2 at a concrete instance: an empty cache forces a refresh, the network
failure surfaces, and the cache is untouched. -/
theorem C2_failure_preserves_cache_witness :
    needsRefresh cexManager 0 = true ∧
    (get_token cexManager 0 (RefreshResult.failure "connection reset")).ret =
      Except.error (CredentialRefreshError.requestFailed "connection reset") ∧
    (get_token cexManager 0 (RefreshResult.failure "connection reset")).state = cexManager :=
  ⟨by decide,
   (C2_failure_preserves_cache cexManager 0 "connection reset").2.1 (by decide),
   (C2_failure_preserves_cache cexManager 0 "connection reset").1⟩

/-- C3: false as stated.  With an empty cache at time 0 and a server-reported lifetime of
exactly 300 seconds, get_token completes, hands out the token, and the stored expires_at
equals 0 = now — not strictly in the future. -/
theorem C3_counterexample :
    (get_token cexManager 0 (RefreshResult.success ⟨some "tok", some 300⟩)).ret =
      Except.ok (some "tok") ∧
    (get_token cexManager 0 (RefreshResult.success ⟨some "tok", some 300⟩)).state.expires_at =
      some 0 ∧
    ¬((0 : Int) < 0) :=
  ⟨rfl, rfl, by decide⟩

/-- C3 (amended): a completing get_token call hands out a token whose expires_at is
strictly in the future whenever either no refresh was needed or the refresh response
reported a lifetime strictly greater than the 300-second safety margin; pathological
lifetimes of 300 seconds or less escape this guarantee. -/
theorem C3_amended_valid_at_handout (m : SAPTokenManager) (now : Int) (r : RefreshResult)
    (t : Option String)
    (hok : (get_token m now r).ret = Except.ok t)
    (hcase : needsRefresh m now = false ∨
      ∃ body, r = RefreshResult.success body ∧ 300 < body.expires_in.getD 3600) :
    ∃ e : Int, (get_token m now r).state.expires_at = some e ∧ now < e := by
  by_cases hnr : needsRefresh m now
  · rcases hcase with hcase | ⟨body, rfl, hL⟩
    · rw [hnr] at hcase; cases hcase
    · cases hA : body.access_token with
      | none =>
        rw [get_token, if_pos hnr, refresh_token] at hok
        rcases body with ⟨a, b⟩
        cases hA
        simp at hok
      | some tok =>
        rcases body with ⟨a, b⟩
        cases hA
        refine ⟨now + (b.getD 3600 - 300), ?_, by simp at hL; omega⟩
        simp [get_token, if_pos hnr, refresh_token]
  · have hv := (needsRefresh_false_iff m now).mp (by simpa using hnr)
    obtain ⟨_, e, hE, hlt⟩ := hv
    refine ⟨e, ?_, hlt⟩
    simp [get_token, hnr, hE]

/-- Witness for C3 (amended): concrete refresh with a one-hour lifetime on an empty cache
at time 0 yields an expiry strictly in the future. -/
theorem C3_amended_valid_at_handout_witness :
    ∃ e : Int,
      (get_token cexManager 0 (RefreshResult.success ⟨some "tok", some 3600⟩)).state.expires_at =
        some e ∧ (0 : Int) < e :=
  C3_amended_valid_at_handout cexManager 0 (RefreshResult.success ⟨some "tok", some 3600⟩)
    (some "tok") rfl (Or.inr ⟨⟨some "tok", some 3600⟩, rfl, by decide⟩)

/-- C4: a successful refresh reporting lifetime L stores expiry = refresh time + (L − 300)
together with the new token, and a response omitting expires_in defaults to 3600 seconds,
storing expiry = refresh time + 3300. -/
theorem C4_safety_margin (m : SAPTokenManager) (now : Int) (tok : String) (oL : Option Int) :
    refresh_token m now (RefreshResult.success ⟨some tok, oL⟩) =
      Except.ok
        { m with token := some tok, expires_at := some (now + (oL.getD 3600 - 300)) } ∧
    refresh_token m now (RefreshResult.success ⟨some tok, none⟩) =
      Except.ok { m with token := some tok, expires_at := some (now + 3300) } := by
  constructor
  · rfl
  · have h2 : ((3600 : Int) - 300) = 3300 := by norm_num
    calc refresh_token m now (RefreshResult.success ⟨some tok, none⟩)
        = Except.ok
            { m with token := some tok, expires_at := some (now + ((3600 : Int) - 300)) } :=
          rfl
      _ = Except.ok { m with token := some tok, expires_at := some (now + 3300) } := by
          rw [h2]

/-- C5: get_token performs the exchange exactly when refresh is required — cached token
Python-falsy, or no expiry known, or now at or past the expiry — and otherwise returns
the cached token untouched with no exchange; force_refresh always performs the exchange,
overwriting the credential on success even when it is still valid. -/
theorem C5_refresh_exactly_when_required (m : SAPTokenManager) (now : Int)
    (r : RefreshResult) :
    ((get_token m now r).exchanges = 1 ↔
      (strTruthy m.token = false ∨ m.expires_at = none ∨
        ∃ e, m.expires_at = some e ∧ e ≤ now)) ∧
    ((get_token m now r).exchanges = 0 →
      (get_token m now r).state = m ∧ (get_token m now r).ret = Except.ok m.token) ∧
    (force_refresh m now r).exchanges = 1 ∧
    (∀ tok oL,
      force_refresh m now (RefreshResult.success ⟨some tok, oL⟩) =
        { state :=
            { m with token := some tok, expires_at := some (now + (oL.getD 3600 - 300)) }
          ret := Except.ok ()
          exchanges := 1 }) := by
  refine ⟨?_, ?_, ?_, ?_⟩
  · rw [← needsRefresh_true_iff]
    by_cases h : needsRefresh m now
    · simp only [get_token, h, if_true, ↓reduceIte]
      cases hr : refresh_token m now r <;> simp [h]
    · simp [get_token, h]
  · intro h0
    by_cases h : needsRefresh m now
    · exfalso
      rw [get_token, if_pos h] at h0
      cases hr : refresh_token m now r <;> rw [hr] at h0 <;> simp at h0
    · constructor <;> simp [get_token, h]
  · rw [force_refresh]
    cases hr : refresh_token m now r <;> simp
  · intro tok oL
    rfl

/-- A manager holding a cached token that is still valid at time 0. -/
def validManager : SAPTokenManager :=
  { cexManager with token := some "cached", expires_at := some 50 }

/-- A manager holding a cached token that has already expired at time 0. -/
def staleManager : SAPTokenManager :=
  { cexManager with token := some "stale", expires_at := some (-5) }

/-- Witness for C5: with a still-valid cached token, get_token performs no exchange and
returns it; on the same state force_refresh still exchanges and overwrites. -/
theorem C5_refresh_exactly_when_required_witness :
    (get_token validManager 0 (RefreshResult.failure "never sent")).exchanges ≠ 1 ∧
    (get_token validManager 0 (RefreshResult.failure "never sent")).ret =
      Except.ok (some "cached") ∧
    (force_refresh validManager 0
        (RefreshResult.success ⟨some "fresh", some 3600⟩)).state.token = some "fresh" := by
  have h :=
    C5_refresh_exactly_when_required validManager 0 (RefreshResult.failure "never sent")
  refine ⟨?_, ?_, ?_⟩
  · intro h1
    rcases h.1.mp h1 with hh | hh | ⟨e, he, hle⟩
    · exact absurd hh (by decide)
    · exact absurd hh (by decide)
    · have h50 : validManager.expires_at = some 50 := rfl
      rw [h50] at he
      have h50e := Option.some_injective _ he
      omega
  · exact (h.2.1 (by decide)).2
  · rw [(C5_refresh_exactly_when_required validManager 0
      (RefreshResult.success ⟨some "fresh", some 3600⟩)).2.2.2 "fresh" (some 3600)]

/-- C6: a success response whose body lacks access_token makes the triggering public
operation fail (the KeyError from the body lookup surfaces as the refresh error), and the
cached credential, if any, is left untouched — for get_token and force_refresh alike. -/
theorem C6_missing_access_token (m : SAPTokenManager) (now : Int) (oL : Option Int) :
    (get_token m now (RefreshResult.success ⟨none, oL⟩)).state = m ∧
    (needsRefresh m now = true →
      (get_token m now (RefreshResult.success ⟨none, oL⟩)).ret =
        Except.error CredentialRefreshError.missingAccessToken) ∧
    (force_refresh m now (RefreshResult.success ⟨none, oL⟩)).state = m ∧
    (force_refresh m now (RefreshResult.success ⟨none, oL⟩)).ret =
      Except.error CredentialRefreshError.missingAccessToken := by
  refine ⟨?_, ?_, ?_, ?_⟩ <;>
    by_cases h : needsRefresh m now <;>
    simp [get_token, force_refresh, refresh_token, h]

/-- Witness for C6: a cache holding a stale credential keeps it unchanged when the
malformed response arrives, and the error surfaces. -/
theorem C6_missing_access_token_witness :
    needsRefresh staleManager 0 = true ∧
    (get_token staleManager 0 (RefreshResult.success ⟨none, some 3600⟩)).state =
      staleManager ∧
    (get_token staleManager 0 (RefreshResult.success ⟨none, some 3600⟩)).ret =
      Except.error CredentialRefreshError.missingAccessToken :=
  ⟨by decide,
   (C6_missing_access_token staleManager 0 (some 3600)).1,
   (C6_missing_access_token staleManager 0 (some 3600)).2.1 (by decide)⟩

/-- Python falsiness of an optional string, spelt out: absent or blank. -/
lemma strTruthy_eq_false_iff (o : Option String) :
    strTruthy o = false ↔ (o = none ∨ o = some "") := by
  cases o with
  | none => simp [strTruthy]
  | some s => simp [strTruthy]

/-- C7: construction fails exactly when at least one of the authorization endpoint URL,
client identifier or client secret is missing or blank; the model constructor performs no
network exchange at all, and a successful construction yields an empty credential holding
the configuration read from the environment. -/
theorem C7_construction_validation (env : String → Option String) :
    (sap_token_manager_init env = Except.error ConfigError.missingRequiredEnv ↔
      ((env "AICORE_AUTH_URL" = none ∨ env "AICORE_AUTH_URL" = some "") ∨
       (env "AICORE_CLIENT_ID" = none ∨ env "AICORE_CLIENT_ID" = some "") ∨
       (env "AICORE_CLIENT_SECRET" = none ∨ env "AICORE_CLIENT_SECRET" = some ""))) ∧
    (∀ m, sap_token_manager_init env = Except.ok m →
      m.token = none ∧ m.expires_at = none ∧
      m.auth_url = env "AICORE_AUTH_URL" ∧ m.client_id = env "AICORE_CLIENT_ID" ∧
      m.client_secret = env "AICORE_CLIENT_SECRET") := by
  constructor
  · rw [sap_token_manager_init]
    simp only [← strTruthy_eq_false_iff]
    cases h1 : strTruthy (env "AICORE_AUTH_URL") <;>
    cases h2 : strTruthy (env "AICORE_CLIENT_ID") <;>
    cases h3 : strTruthy (env "AICORE_CLIENT_SECRET") <;>
      simp [h1, h2, h3]
  · intro m hm
    by_cases hc : (strTruthy (env "AICORE_AUTH_URL") && strTruthy (env "AICORE_CLIENT_ID")
        && strTruthy (env "AICORE_CLIENT_SECRET")) = true
    · rw [sap_token_manager_init] at hm
      rw [if_pos hc] at hm
      cases hm
      exact ⟨rfl, rfl, rfl, rfl, rfl⟩
    · rw [sap_token_manager_init] at hm
      rw [if_neg hc] at hm
      cases hm

/-- Environment used by the witnesses: the three required settings present and non-blank,
nothing else set. -/
def envFull : String → Option String := fun k =>
  if k = "AICORE_AUTH_URL" then some "https://auth.example.com"
  else if k = "AICORE_CLIENT_ID" then some "client"
  else if k = "AICORE_CLIENT_SECRET" then some "secret"
  else none

/-- Witness for C7: construction under a complete environment succeeds and produces the
expected empty credential. -/
theorem C7_construction_validation_witness :
    sap_token_manager_init envFull = Except.ok cexManager ∧
    (cexManager.token = none ∧ cexManager.expires_at = none ∧
      cexManager.auth_url = envFull "AICORE_AUTH_URL" ∧
      cexManager.client_id = envFull "AICORE_CLIENT_ID" ∧
      cexManager.client_secret = envFull "AICORE_CLIENT_SECRET") :=
  ⟨rfl, (C7_construction_validation envFull).2 cexManager rfl⟩

/-- Environment at construction time for the C8 counterexample: it carries an explicit
default resource group. -/
def envRG1 : String → Option String := fun k =>
  if k = "AICORE_RESOURCE_GROUP" then some "rg-at-construction" else envFull k

/-- Environment at call time for the C8 counterexample: the resource group variable has
changed since construction. -/
def envRG2 : String → Option String := fun k =>
  if k = "AICORE_RESOURCE_GROUP" then some "rg-at-call" else envFull k

/-- C8: false as stated.  The default resource qualifier is read from the environment at
every get_auth_headers call, not loaded once at construction: a manager constructed while
the environment said rg-at-construction, called after the variable changed to rg-at-call,
emits rg-at-call. -/
theorem C8_counterexample :
    sap_token_manager_init envRG1 = Except.ok cexManager ∧
    (envRG1 "AICORE_RESOURCE_GROUP").getD "default" = "rg-at-construction" ∧
    get_auth_headers envRG2 cexManager 0 (RefreshResult.success ⟨some "tok", some 3600⟩)
        none =
      Except.ok ({ cexManager with token := some "tok", expires_at := some 3300 },
        { authorization := "Bearer tok"
          ai_resource_group := "rg-at-call"
          content_type := "application/json" }) ∧
    "rg-at-call" ≠ "rg-at-construction" :=
  ⟨rfl, rfl, rfl, by decide⟩

/-- C8 (amended): auth_headers always carries an Authorization value of Bearer followed by
exactly the token the embedded get_token call returns, a Content-Type of
application/json, and the resource qualifier equal to the explicit argument when supplied,
otherwise to the environment value of AICORE_RESOURCE_GROUP as read at call time
(defaulting to the string default) — not to a value captured at construction. -/
theorem C8_amended_header_composition (env : String → Option String) (m : SAPTokenManager)
    (now : Int) (r : RefreshResult) (rg : Option String) (t : Option String)
    (hok : (get_token m now r).ret = Except.ok t) :
    get_auth_headers env m now r rg =
      Except.ok ((get_token m now r).state,
        { authorization := "Bearer " ++ pyStr t
          ai_resource_group := rg.getD ((env "AICORE_RESOURCE_GROUP").getD "default")
          content_type := "application/json" }) := by
  rw [get_auth_headers.eq_def]
  cases rg with
  | none => simp [hok]
  | some g => simp [hok]

/-- Witness for C8 (amended): concrete call with an explicit resource group on a cache
that is still valid, so no exchange is involved. -/
theorem C8_amended_header_composition_witness :
    get_auth_headers envFull validManager 0 (RefreshResult.failure "unused")
        (some "rg-x") =
      Except.ok (validManager,
        { authorization := "Bearer cached"
          ai_resource_group := "rg-x"
          content_type := "application/json" }) :=
  C8_amended_header_composition envFull validManager 0 (RefreshResult.failure "unused")
    (some "rg-x") (some "cached") rfl

/-- A manager whose cached token is the empty string with an expiry far in the future. -/
def emptyTokenManager : SAPTokenManager :=
  { cexManager with token := some "", expires_at := some 1000 }

/-- C10: a cached token equal to the empty string is treated as absent: whatever the
stored expiry, is_token_valid returns false and get_token performs a refresh exchange
instead of returning the empty string. -/
theorem C10_empty_token_treated_absent (m : SAPTokenManager) (now : Int)
    (r : RefreshResult) (hm : m.token = some "") :
    is_token_valid m now = false ∧ (get_token m now r).exchanges = 1 := by
  have ht : strTruthy m.token = false := by rw [hm]; rfl
  constructor
  · rw [is_token_valid, ht]
    simp
  · have hn : needsRefresh m now = true := by
      rw [needsRefresh, ht]
      simp
    rw [get_token, if_pos hn]
    cases hr : refresh_token m now r <;> simp [hr]

/-- Witness for C10: empty-string token, expiry 1000 seconds in the future, still treated
as absent. -/
theorem C10_empty_token_treated_absent_witness :
    is_token_valid emptyTokenManager 0 = false ∧
    (get_token emptyTokenManager 0
        (RefreshResult.success ⟨some "fresh", some 3600⟩)).exchanges = 1 :=
  C10_empty_token_treated_absent emptyTokenManager 0
    (RefreshResult.success ⟨some "fresh", some 3600⟩) rfl

/-
Interleaving model of N threads concurrently calling get_token_manager, the module-level
singleton accessor with double-checked locking.  A constructed SAPTokenManager instance is
identified by its construction sequence number; the module global _token_manager_instance
holds the published identity.  Each __init__ run (a configuration validation) bumps the
construction counter, whether it succeeds or raises.
-/

/-- Program counter of one thread in get_token_manager: before the unguarded is-None
check; waiting to acquire _instance_lock; holding the lock, about to re-check and possibly
construct; past the with-block, about to read and return the module global; or finished
with the reference it returned (none models a construction exception propagating). -/
inductive SingletonPC where
  | start
  | waiting
  | constructing
  | returning
  | finished (ret : Option Nat)

/-- Shared state of the singleton provider: the published instance, the holder of
_instance_lock, every thread's program counter, and how many __init__ runs happened. -/
structure SingletonSys (n : Nat) where
  inst : Option Nat
  lockHolder : Option (Fin n)
  threads : Fin n → SingletonPC
  constructions : Nat

/-- One atomic step of thread i in the get_token_manager interleaving model. -/
def singletonStep (env : String → Option String) (sys : SingletonSys n) (i : Fin n) :
    SingletonSys n :=
  match sys.threads i with
  | SingletonPC.start =>
    match sys.inst with
    | some _ => { sys with threads := Function.update sys.threads i SingletonPC.returning }
    | none => { sys with threads := Function.update sys.threads i SingletonPC.waiting }
  | SingletonPC.waiting =>
    match sys.lockHolder with
    | none =>
      { sys with lockHolder := some i
                 threads := Function.update sys.threads i SingletonPC.constructing }
    | some _ => sys
  | SingletonPC.constructing =>
    match sys.inst with
    | some _ =>
      { sys with lockHolder := none
                 threads := Function.update sys.threads i SingletonPC.returning }
    | none =>
      match sap_token_manager_init env with
      | Except.ok _ =>
        { sys with inst := some sys.constructions
                   constructions := sys.constructions + 1
                   lockHolder := none
                   threads := Function.update sys.threads i SingletonPC.returning }
      | Except.error _ =>
        { sys with constructions := sys.constructions + 1
                   lockHolder := none
                   threads := Function.update sys.threads i (SingletonPC.finished none) }
  | SingletonPC.returning =>
    { sys with threads := Function.update sys.threads i (SingletonPC.finished sys.inst) }
  | SingletonPC.finished _ => sys

/-- Run the singleton interleaving model under a schedule. -/
def runSingleton (env : String → Option String) (sys : SingletonSys n) :
    List (Fin n) → SingletonSys n
  | [] => sys
  | i :: rest => runSingleton env (singletonStep env sys i) rest

/-- Initial singleton state: no instance published, lock free, all threads about to
call get_token_manager. -/
def initSingleton (n : Nat) : SingletonSys n :=
  { inst := none
    lockHolder := none
    threads := fun _ => SingletonPC.start
    constructions := 0 }

/-- Inductive invariant of the singleton run under a valid configuration: either nothing
was constructed yet (no instance, nobody past the with-block) or exactly one construction
happened, its identity is published, and every finished caller returned it. -/
def c9Inv (sys : SingletonSys n) : Prop :=
  (sys.inst = none ∧ sys.constructions = 0 ∧
    ∀ i : Fin n, sys.threads i ≠ SingletonPC.returning ∧
      ∀ r, sys.threads i ≠ SingletonPC.finished r) ∨
  (sys.inst = some 0 ∧ sys.constructions = 1 ∧
    ∀ i : Fin n, ∀ r, sys.threads i = SingletonPC.finished r → r = some 0)

lemma c9Inv_step (n : Nat) (env : String → Option String) (m : SAPTokenManager)
    (hok : sap_token_manager_init env = Except.ok m)
    (sys : SingletonSys n) (i : Fin n) (h : c9Inv sys) :
    c9Inv (singletonStep env sys i) := by
  cases hpc : sys.threads i with
  | start =>
    cases hI : sys.inst with
    | none =>
      simp only [singletonStep, hpc, hI]
      rcases h with ⟨h1, h2, h3⟩ | ⟨h1, h2, h3⟩
      · refine Or.inl ⟨rfl, h2, ?_⟩
        intro j
        by_cases hij : j = i
        · subst hij; simp only [Function.update_same]
          exact ⟨fun hc => SingletonPC.noConfusion hc,
            fun r hc => SingletonPC.noConfusion hc⟩
        · simp only [Function.update_noteq hij]; exact h3 j
      · rw [h1] at hI; cases hI
    | some v =>
      simp only [singletonStep, hpc, hI]
      rcases h with ⟨h1, h2, h3⟩ | ⟨h1, h2, h3⟩
      · rw [h1] at hI; cases hI
      · refine Or.inr ⟨?_, h2, ?_⟩
        · rw [← hI]; exact h1
        · intro j r hj
          by_cases hij : j = i
          · subst hij; simp only [Function.update_same] at hj; cases hj
          · simp only [Function.update_noteq hij] at hj; exact h3 j r hj
  | waiting =>
    cases hl : sys.lockHolder with
    | none =>
      simp only [singletonStep, hpc, hl]
      rcases h with ⟨h1, h2, h3⟩ | ⟨h1, h2, h3⟩
      · refine Or.inl ⟨h1, h2, ?_⟩
        intro j
        by_cases hij : j = i
        · subst hij; simp only [Function.update_same]
          exact ⟨fun hc => SingletonPC.noConfusion hc,
            fun r hc => SingletonPC.noConfusion hc⟩
        · simp only [Function.update_noteq hij]; exact h3 j
      · refine Or.inr ⟨h1, h2, ?_⟩
        intro j r hj
        by_cases hij : j = i
        · subst hij; simp only [Function.update_same] at hj; cases hj
        · simp only [Function.update_noteq hij] at hj; exact h3 j r hj
    | some k =>
      simp only [singletonStep, hpc, hl]
      exact h
  | constructing =>
    cases hI : sys.inst with
    | none =>
      simp only [singletonStep, hpc, hI, hok]
      rcases h with ⟨h1, h2, h3⟩ | ⟨h1, h2, h3⟩
      · refine Or.inr ⟨by rw [h2], by rw [h2], ?_⟩
        intro j r hj
        by_cases hij : j = i
        · subst hij; simp only [Function.update_same] at hj; cases hj
        · simp only [Function.update_noteq hij] at hj
          exact absurd hj ((h3 j).2 r)
      · rw [h1] at hI; cases hI
    | some v =>
      simp only [singletonStep, hpc, hI]
      rcases h with ⟨h1, h2, h3⟩ | ⟨h1, h2, h3⟩
      · rw [h1] at hI; cases hI
      · refine Or.inr ⟨?_, h2, ?_⟩
        · rw [← hI]; exact h1
        · intro j r hj
          by_cases hij : j = i
          · subst hij; simp only [Function.update_same] at hj; cases hj
          · simp only [Function.update_noteq hij] at hj; exact h3 j r hj
  | returning =>
    simp only [singletonStep, hpc]
    rcases h with ⟨h1, h2, h3⟩ | ⟨h1, h2, h3⟩
    · exact absurd hpc (h3 i).1
    · refine Or.inr ⟨h1, h2, ?_⟩
      intro j r hj
      by_cases hij : j = i
      · subst hij; simp only [Function.update_same] at hj
        injection hj with hj'
        rw [← hj', h1]
      · simp only [Function.update_noteq hij] at hj; exact h3 j r hj
  | finished r =>
    simp only [singletonStep, hpc]
    exact h

lemma c9Inv_run (n : Nat) (env : String → Option String) (m : SAPTokenManager)
    (hok : sap_token_manager_init env = Except.ok m)
    (sched : List (Fin n)) (sys : SingletonSys n) (h : c9Inv sys) :
    c9Inv (runSingleton env sys sched) := by
  induction sched generalizing sys with
  | nil => exact h
  | cons j rest ih => exact ih _ (c9Inv_step n env m hok sys j h)

/-- C9: under a configuration that validates, every call to the singleton accessor that
has completed — concurrent first calls included — returned a reference to the one
instance constructed first, and at most one construction / configuration validation ever
occurs (exactly one as soon as some caller has completed). -/
theorem C9_singleton_unique (n : Nat) (env : String → Option String)
    (sched : List (Fin n)) (m : SAPTokenManager)
    (hok : sap_token_manager_init env = Except.ok m) :
    (runSingleton env (initSingleton n) sched).constructions ≤ 1 ∧
    (∀ i : Fin n, ∀ r,
      (runSingleton env (initSingleton n) sched).threads i = SingletonPC.finished r →
      r = some 0 ∧ (runSingleton env (initSingleton n) sched).constructions = 1) := by
  have hinit : c9Inv (initSingleton n) := by
    refine Or.inl ⟨rfl, rfl, ?_⟩
    intro i
    exact ⟨fun hc => SingletonPC.noConfusion hc, fun r hc => SingletonPC.noConfusion hc⟩
  have hinv := c9Inv_run n env m hok sched (initSingleton n) hinit
  rcases hinv with ⟨h1, h2, h3⟩ | ⟨h1, h2, h3⟩
  · refine ⟨by omega, ?_⟩
    intro i r hir
    exact absurd hir ((h3 i).2 r)
  · refine ⟨by omega, ?_⟩
    intro i r hir
    exact ⟨h3 i r hir, h2⟩

/-- Witness for C9: a complete environment validates, and a concrete two-thread
interleaved run — both threads racing through the double-checked pattern — performs at
most one construction. -/
theorem C9_singleton_unique_witness :
    (runSingleton envFull (initSingleton 2) [0, 1, 0, 1, 0, 1, 0, 1]).constructions ≤ 1 :=
  (C9_singleton_unique 2 envFull [0, 1, 0, 1, 0, 1, 0, 1] cexManager rfl).1
